import Mathlib

/-!
# Verification of the `wasmparser` validator and `wasm-encoder` core

Shallow embedding of the parts of the `wasm-tools` repository relevant to the
checked claims:

* `crates/wasmparser/src/validator.rs` — `check_max`, section cap checks,
  `Validator::version`, `Validator::start_section`,
  `Validator::code_section_start`, `Validator::data_section` (cap part),
  `Validator::end`, `Validator::validate_all`;
* `crates/wasmparser/src/readers/core/data.rs` — `DataSectionReader::read` and
  `DataSectionReader::verify_data_end`;
* `crates/wasm-encoder/src/core/memories.rs` — `MemoryType::encode`.

Machine integers (`u32`, `usize`, `u64`) are modelled as `Nat`: all the
arithmetic in the embedded code is either checked (`checked_sub`) or cannot
overflow on the inputs the code receives, so `Nat` is a faithful model.
Fallible Rust code returning `Result<T, BinaryReaderError>` is modelled as
`Except WError T`.
-/

/-- `BinaryReaderError`: a message plus a byte offset into the original buffer. -/
structure WError where
  message : String
  offset : Nat
deriving DecidableEq, Repr

/-- Rust's `usize::checked_sub`. -/
def checkedSub (a b : Nat) : Option Nat :=
  if b ≤ a then some (a - b) else none

/-- `check_max` from `validator.rs` (lines 59-76): the cardinality-cap check.
`cur_len` is the current index-space length, `amt_added` the declared count of
the incoming section, `max` the configured cap.  The Rust code chains two
`checked_sub`s and fails when the chain underflows. -/
def check_max (cur_len amt_added max : Nat) (desc : String) (offset : Nat) :
    Except WError Unit :=
  if ((checkedSub max cur_len).bind (fun amt => checkedSub amt amt_added)).isNone then
    if max = 1 then
      .error ⟨"multiple " ++ desc, offset⟩
    else
      .error ⟨desc ++ " count exceeds limit of " ++ toString max, offset⟩
  else
    .ok ()

/-- Modelled from the spec: `MAX_WASM_DATA_SEGMENTS` lives in
`crates/wasmparser/src/limits.rs`, which is not part of the sources here; the
spec fixes the cap: "data segments ≤ 100,000". -/
def MAX_WASM_DATA_SEGMENTS : Nat := 100000

/-- Modelled from the spec: `MAX_WASM_MEMORIES` lives in `limits.rs` (not in
the sources); the spec only says "memories ≤ 1 without multi-memory, else ≤
MAX".  Its exact value is immaterial to every theorem below; 100 is used as a
placeholder for "MAX". -/
def MAX_WASM_MEMORIES : Nat := 100

/-- The feature flags of `WasmFeatures` (`validator.rs` lines 204-238). -/
structure WasmFeatures where
  mutable_global : Bool
  saturating_float_to_int : Bool
  sign_extension : Bool
  reference_types : Bool
  multi_value : Bool
  bulk_memory : Bool
  simd : Bool
  relaxed_simd : Bool
  threads : Bool
  tail_call : Bool
  deterministic_only : Bool
  multi_memory : Bool
  exceptions : Bool
  memory64 : Bool
  extended_const : Bool
  component_model : Bool
deriving DecidableEq, Repr

/-- `WasmFeatures::default` (`validator.rs` lines 262-286).  The Rust default
for `deterministic_only` is `cfg!(feature = "deterministic")`, which is `false`
in a default build. -/
def WasmFeatures.default : WasmFeatures where
  relaxed_simd := false
  threads := false
  tail_call := false
  multi_memory := false
  exceptions := false
  memory64 := false
  extended_const := false
  component_model := false
  deterministic_only := false
  mutable_global := true
  saturating_float_to_int := true
  sign_extension := true
  bulk_memory := true
  multi_value := true
  reference_types := true
  simd := true

/-- Modelled from the spec: `ModuleState::max_memories` lives in
`validator/core.rs` (not in the sources); the spec says "memories ≤ 1 without
multi-memory, else ≤ MAX". -/
def max_memories (f : WasmFeatures) : Nat :=
  if f.multi_memory then MAX_WASM_MEMORIES else 1

/-- The cap check performed by `Validator::memory_section` (`validator.rs`
lines 596-603): `check_max` over the current memory count against
`max_memories`. -/
def memory_section_cap (memories_len : Nat) (f : WasmFeatures) (count offset : Nat) :
    Except WError Unit :=
  check_max memories_len count (max_memories f) "memories" offset

/-- The cap check performed by `Validator::data_section` (`validator.rs` lines
846-855): note that the "current length" passed to `check_max` is
`state.module.data_count.unwrap_or(0)`, i.e. the count declared by a preceding
DataCount section, not the number of data segments decoded so far. -/
def data_section_cap (data_count : Option Nat) (count offset : Nat) :
    Except WError Unit :=
  check_max (data_count.getD 0) count MAX_WASM_DATA_SEGMENTS "data segments" offset

/-- `Validator::data_count_section` (`validator.rs` lines 752-767): the
DataCount section itself is bounded by the same cap. -/
def data_count_section_check (count offset : Nat) : Except WError Unit :=
  if count > MAX_WASM_DATA_SEGMENTS then
    .error ⟨"data count section specifies too many data segments", offset⟩
  else
    .ok ()

/-- The count reconciliation of `Validator::code_section_start`
(`validator.rs` lines 778-795): `expected_code_bodies` is `Some n` when a
Function section declared `n` functions, `None` when no Function section was
seen. -/
def code_section_start_check (expected_code_bodies : Option Nat) (count offset : Nat) :
    Except WError Unit :=
  match expected_code_bodies with
  | some n =>
    if n = count then .ok ()
    else .error ⟨"function and code section have inconsistent lengths", offset⟩
  | none =>
    if count = 0 then .ok ()
    else .error ⟨"code section without function section", offset⟩

/-- The closed set of core value types (`Type` in `wasmparser`). -/
inductive ValType where
  | I32 | I64 | F32 | F64 | V128 | FuncRef | ExternRef
deriving DecidableEq, Repr

/-- A core function signature: parameter and result value types. -/
structure FuncType where
  params : List ValType
  returns : List ValType
deriving DecidableEq, Repr

/-- Modelled from the spec: `Module::get_func_type` lives in
`validator/core.rs` (not in the sources).  The function index space maps each
index to a type id; the type id indexes the interned function signatures.
An out-of-range index is an error. -/
def get_func_type (functions : List Nat) (types : List FuncType) (func offset : Nat) :
    Except WError FuncType :=
  match functions.get? func with
  | none => .error ⟨"unknown function " ++ toString func ++ ": function index out of bounds", offset⟩
  | some tyId =>
    match types.get? tyId with
    | none => .error ⟨"unknown type " ++ toString tyId ++ ": type index out of bounds", offset⟩
    | some ty => .ok ty

/-- The type check of `Validator::start_section` (`validator.rs` lines
703-718): resolve the start function's type, then reject it unless both the
parameter and the result lists are empty. -/
def start_section_check (functions : List Nat) (types : List FuncType) (func offset : Nat) :
    Except WError Unit :=
  match get_func_type functions types func offset with
  | .error e => .error e
  | .ok ty =>
    if ¬ty.params.isEmpty ∨ ¬ty.returns.isEmpty then
      .error ⟨"invalid start function type", offset⟩
    else
      .ok ()

/-! ## Binary reader and the data-section reader (`readers/core/data.rs`) -/

/-- The cursor state of `BinaryReader`: the borrowed byte buffer, the current
position within it, and the absolute offset of the buffer's first byte in the
original file. -/
structure BinReader where
  buffer : List Nat
  position : Nat
  original_offset : Nat
deriving DecidableEq, Repr

/-- `BinaryReader::original_position`. -/
def BinReader.original_position (r : BinReader) : Nat :=
  r.original_offset + r.position

/-- Modelled from the spec: reading one byte from the cursor (the primitive of
`binary_reader.rs`, which is not in the sources); at end of buffer it fails
with a byte-accurate offset. -/
def readByte (r : BinReader) : Except WError (Nat × BinReader) :=
  match r.buffer.get? r.position with
  | some b => .ok (b, { r with position := r.position + 1 })
  | none => .error ⟨"unexpected end-of-file", r.original_position⟩

/-- Modelled from the spec: `BinaryReader::read_var_u32` (`binary_reader.rs`
is not in the sources) — unsigned LEB128 of at most 5 bytes, rejecting values
that do not fit in 32 bits. -/
def readVarU32Go : Nat → Nat → Nat → BinReader → Except WError (Nat × BinReader)
  | 0, _, _, r => .error ⟨"invalid var_u32: integer representation too long", r.original_position⟩
  | fuel + 1, shift, acc, r =>
    match readByte r with
    | .error e => .error e
    | .ok (b, r') =>
      if b < 128 then
        if acc + (b % 128) * 2 ^ shift < 2 ^ 32 then
          .ok (acc + (b % 128) * 2 ^ shift, r')
        else .error ⟨"invalid var_u32: integer too large", r'.original_position⟩
      else
        readVarU32Go fuel (shift + 7) (acc + (b % 128) * 2 ^ shift) r'

/-- Unsigned LEB128 `u32` read. -/
def read_var_u32 (r : BinReader) : Except WError (Nat × BinReader) :=
  readVarU32Go 5 0 0 r

/-- Modelled from the spec: skipping one LEB128-encoded integer of at most
`fuel` bytes (used for the immediates of constant-expression operators whose
value is irrelevant to skipping). -/
def skipVar : Nat → BinReader → Except WError BinReader
  | 0, r => .error ⟨"invalid var: integer representation too long", r.original_position⟩
  | fuel + 1, r =>
    match readByte r with
    | .error e => .error e
    | .ok (b, r') => if b < 128 then .ok r' else skipVar fuel r'

/-- Modelled from the spec: skipping `n` raw bytes (fixed-width IEEE-754
immediates). -/
def skipBytes (n : Nat) (r : BinReader) : Except WError BinReader :=
  if r.position + n ≤ r.buffer.length then
    .ok { r with position := r.position + n }
  else
    .error ⟨"unexpected end-of-file", r.original_offset + r.buffer.length⟩

/-- Modelled from the spec: `BinaryReader::skip_init_expr` (`binary_reader.rs`
is not in the sources) — "scan operators until a terminating `end` at depth 0".
The operators covered are the constant-expression subset of the spec
(`i32.const`, `i64.const`, `f32.const`, `f64.const`, `global.get`, `ref.null`,
`ref.func`, and the terminating `end`); the constant-expression grammar has no
block-structured operators, so the depth never leaves 0. -/
def skipInitExprGo : Nat → BinReader → Except WError BinReader
  | 0, r => .error ⟨"unexpected end-of-file", r.original_position⟩
  | fuel + 1, r =>
    match readByte r with
    | .error e => .error e
    | .ok (op, r') =>
      if op = 0x0b then .ok r'
      else
        match
          if op = 0x41 then skipVar 5 r'
          else if op = 0x42 then skipVar 10 r'
          else if op = 0x43 then skipBytes 4 r'
          else if op = 0x44 then skipBytes 8 r'
          else if op = 0x23 ∨ op = 0xd2 then skipVar 5 r'
          else if op = 0xd0 then skipBytes 1 r'
          else .error ⟨"unsupported operator in constant expression", r.original_position⟩
        with
        | .error e => .error e
        | .ok r'' => skipInitExprGo fuel r''

/-- `skip_init_expr`: every loop iteration consumes at least one byte, so the
buffer length bounds the number of iterations. -/
def skip_init_expr (r : BinReader) : Except WError BinReader :=
  skipInitExprGo (r.buffer.length + 1) r

/-- `DataKind` from `data.rs` (lines 33-44).  The active variant carries the
init expression as its absolute offset plus its raw bytes. -/
inductive DataKind where
  | Passive
  | Active (memory_index : Nat) (init_expr_offset : Nat) (init_expr : List Nat)
deriving DecidableEq, Repr

/-- `Data` from `data.rs` (lines 22-30). -/
structure DataSeg where
  kind : DataKind
  data : List Nat
  range_start : Nat
  range_end : Nat
deriving DecidableEq, Repr

/-- `DataSectionReader` (`data.rs` lines 47-52). -/
structure DataSectionReader where
  reader : BinReader
  count : Nat
  forbid_bulk_memory : Bool
deriving DecidableEq, Repr

/-- The outcome of a read modelled with Rust panics made explicit: a Rust
slice expression `&buffer[lo..hi]` panics when the bounds are out of range, and
that case is a distinct outcome rather than an error value. -/
inductive RResult (α : Type) where
  | ok (a : α)
  | err (e : WError)
  | panicked
deriving DecidableEq, Repr

/-- A Rust slice `&buf[lo..hi]`: `none` models the out-of-bounds panic. -/
def rustSlice (buf : List Nat) (lo hi : Nat) : Option (List Nat) :=
  if lo ≤ hi ∧ hi ≤ buf.length then some ((buf.drop lo).take (hi - lo)) else none

/-- `DataSectionReader::verify_data_end` (`data.rs` lines 81-89): fails when
the declared end of the data bytes lies past the section's byte slice, with
the error offset at the end of the section. -/
def verify_data_end (r : BinReader) (e : Nat) : Except WError Unit :=
  if r.buffer.length < e then
    .error ⟨"unexpected end of section or function: data segment extends past end of the data section",
            r.original_offset + r.buffer.length⟩
  else
    .ok ()

/-- The tail of `DataSectionReader::read` (`data.rs` lines 141-150): read the
declared byte length, verify it fits in the section, slice the data bytes and
skip past them. -/
def dataReadTail (kind : DataKind) (segment_start : Nat) (s : DataSectionReader)
    (r : BinReader) : RResult (DataSeg × DataSectionReader) :=
  match read_var_u32 r with
  | .error e => .err e
  | .ok (data_len, r4) =>
    match verify_data_end r4 (r4.position + data_len) with
    | .error e => .err e
    | .ok _ =>
      match rustSlice r4.buffer r4.position (r4.position + data_len) with
      | none => .panicked
      | some data =>
        .ok ({ kind := kind, data := data, range_start := segment_start,
               range_end := r4.original_offset + (r4.position + data_len) },
             { s with reader := { r4 with position := r4.position + data_len } })

/-- `DataSectionReader::read` (`data.rs` lines 109-151).  The flags byte is
read first; under `forbid_bulk_memory` the segment is never passive and the
flags value itself is used as the memory index; otherwise flags `1` is
passive, `0` is active at memory 0, `2` is active with an explicit memory
index, and anything else is "invalid flags byte in data segment". -/
def DataSectionReader.read (s : DataSectionReader) :
    RResult (DataSeg × DataSectionReader) :=
  match read_var_u32 s.reader with
  | .error e => .err e
  | .ok (flags, r1) =>
    if ¬s.forbid_bulk_memory ∧ flags = 1 then
      dataReadTail .Passive s.reader.original_position s r1
    else
      match
        (if flags = 0 then .ok (0, r1)
         else if s.forbid_bulk_memory then .ok (flags, r1)
         else if flags = 2 then
           match read_var_u32 r1 with
           | .error e => .err e
           | .ok p => .ok p
         else
           .err ⟨"invalid flags byte in data segment", r1.original_position - 1⟩ :
          RResult (Nat × BinReader))
      with
      | .err e => .err e
      | .panicked => .panicked
      | .ok (memory_index, r2) =>
        match skip_init_expr r2 with
        | .error e => .err e
        | .ok r3 =>
          match rustSlice r3.buffer r2.position r3.position with
          | none => .panicked
          | some exprBytes =>
            dataReadTail
              (.Active memory_index (r3.original_offset + r2.position) exprBytes)
              s.reader.original_position s r3

/-! ## Validator state machine (`validator.rs`) -/

/-- The `Encoding` enum: module vs component binaries. -/
inductive Encoding where
  | Module
  | Component
deriving DecidableEq, Repr

/-- The validator's `State` enum (`validator.rs` lines 123-139). -/
inductive VState where
  | Unparsed (expected : Option Encoding)
  | ModuleSt
  | ComponentSt
  | EndSt
deriving DecidableEq, Repr

/-- `State::ensure_component_state` (`validator.rs` lines 169-194). -/
def VState.ensure_component_state (s : VState) (sec : String) (offset : Nat) :
    Except WError Unit :=
  match s with
  | .Unparsed _ =>
    .error ⟨"unexpected component " ++ sec ++ " section before header was parsed", offset⟩
  | .ModuleSt =>
    .error ⟨"unexpected component " ++ sec ++ " section while parsing a module", offset⟩
  | .ComponentSt => .ok ()
  | .EndSt =>
    .error ⟨"unexpected component " ++ sec ++ " section after parsing has completed", offset⟩

/-- Modelled from the spec: the per-module index spaces of `Module` in
`validator/core.rs` (not in the sources); each index space is a list of ids
into the shared type list (the element of the list is irrelevant to the counts
the claims need). -/
structure ModuleRec where
  types : List Nat := []
  functions : List Nat := []
  tables : List Nat := []
  memories : List Nat := []
  globals : List Nat := []
  tags : List Nat := []
  element_types : List Nat := []
  data_count : Option Nat := none
deriving DecidableEq, Repr

/-- Modelled from the spec: `ModuleState` in `validator/core.rs` (not in the
sources): the module under construction plus the Function/Code and
DataCount/Data reconciliation counters. -/
structure ModuleState where
  module : ModuleRec := {}
  expected_code_bodies : Option Nat := none
  data_segment_count : Nat := 0
deriving DecidableEq, Repr

/-- Modelled from the spec: `ModuleState::validate_end` in `validator/core.rs`
(not in the sources): on `End`, a declared-but-missing Code section and a
DataCount/Data mismatch are rejected. -/
def ModuleState.validate_end (s : ModuleState) (offset : Nat) : Except WError Unit :=
  match s.expected_code_bodies with
  | some n =>
    if n ≠ 0 then
      .error ⟨"function and code section have inconsistent lengths", offset⟩
    else
      validateDataCount s offset
  | none => validateDataCount s offset
where
  validateDataCount (s : ModuleState) (offset : Nat) : Except WError Unit :=
    match s.module.data_count with
    | some n =>
      if n ≠ s.data_segment_count then
        .error ⟨"data count and data section have inconsistent lengths", offset⟩
      else
        .ok ()
    | none => .ok ()

/-- Modelled from the spec: a component scope (`ComponentState` in
`validator/component.rs`, not in the sources): each scope holds its types,
functions, modules, components and instances as lists of ids into the shared
type list. -/
structure ComponentState where
  types : List Nat := []
  functions : List Nat := []
  modules : List Nat := []
  components : List Nat := []
  instances : List Nat := []
deriving DecidableEq, Repr

/-- Modelled from the spec: `ComponentState::add_component` in
`validator/component.rs` (not in the sources): the finished child's inferred
component type is interned in the shared type list (modelled by its running
count) and its id is appended to the parent scope's component index space. -/
def addComponent (parent : ComponentState) (typesCount : Nat) :
    ComponentState × Nat :=
  ({ parent with components := parent.components ++ [typesCount] }, typesCount + 1)

/-- Modelled from the spec: `ComponentState::add_module` in
`validator/component.rs` (not in the sources): the finished module's type is
interned and its id appended to the parent scope's module index space. -/
def addModule (parent : ComponentState) (typesCount : Nat) :
    ComponentState × Nat :=
  ({ parent with modules := parent.modules ++ [typesCount] }, typesCount + 1)

/-- Modelled from the spec: the result type `Types` of `validator/types.rs`
(not in the sources), reduced to its count queries (§6.2 of the spec). -/
structure TypesR where
  type_count : Nat
  function_count : Nat
  table_count : Nat
  memory_count : Nat
  global_count : Nat
  tag_count : Nat
  element_count : Nat
  module_count : Nat
  component_count : Nat
  instance_count : Nat
  value_count : Nat
deriving DecidableEq, Repr

/-- Modelled from the spec: `Types::from_module` — the counts mirror the
module's index spaces; the component-side counts are zero. -/
def TypesR.from_module (m : ModuleRec) : TypesR where
  type_count := m.types.length
  function_count := m.functions.length
  table_count := m.tables.length
  memory_count := m.memories.length
  global_count := m.globals.length
  tag_count := m.tags.length
  element_count := m.element_types.length
  module_count := 0
  component_count := 0
  instance_count := 0
  value_count := 0

/-- Modelled from the spec: `Types::from_component` — the counts mirror the
component scope's index spaces; the module-side counts are zero. -/
def TypesR.from_component (c : ComponentState) : TypesR where
  type_count := c.types.length
  function_count := c.functions.length
  table_count := 0
  memory_count := 0
  global_count := 0
  tag_count := 0
  element_count := 0
  module_count := c.modules.length
  component_count := c.components.length
  instance_count := c.instances.length
  value_count := 0

/-- The validator's mutable state (`Validator` struct, `validator.rs` lines
103-121).  The shared `TypeList` is modelled by the number of interned
definitions; the component stack is a list whose head is the top (most deeply
nested) scope, matching `Vec` push/pop at the end. -/
structure ValidatorS where
  state : VState := .Unparsed none
  typesCount : Nat := 0
  module : Option ModuleState := none
  components : List ComponentState := []
  features : WasmFeatures := WasmFeatures.default
deriving DecidableEq, Repr

/-- `Validator::new`. -/
def Validator.new : ValidatorS := {}

/-- `WASM_MODULE_VERSION`: the module version word is 1. -/
def WASM_MODULE_VERSION : Nat := 1

/-- Modelled from the spec: `WASM_COMPONENT_VERSION` (defined outside the
sources) is "a fixed draft constant", distinct from the module version; the
spec's scenario S2 (version word 2 is "unknown binary version") additionally
pins it away from 2.  The draft constant 10 is used; no theorem depends on the
exact value beyond it being distinct from 1 and 2. -/
def WASM_COMPONENT_VERSION : Nat := 10

/-- `Validator::version` (`validator.rs` lines 436-488). -/
def Validator.version (v : ValidatorS) (num : Nat) (encoding : Encoding)
    (range_start : Nat) : Except WError ValidatorS :=
  match v.state with
  | .Unparsed expected =>
    let headerCheck : Except WError Unit :=
      match expected with
      | some e =>
        if e ≠ encoding then
          .error ⟨"expected a version header for a " ++
                  (match e with | .Module => "module" | .Component => "component"),
                  range_start⟩
        else
          .ok ()
      | none => .ok ()
    match headerCheck with
    | .error e => .error e
    | .ok _ =>
      if encoding = .Module ∧ num = WASM_MODULE_VERSION then
        .ok { v with module := some {}, state := .ModuleSt }
      else if encoding = .Component ∧ num = WASM_COMPONENT_VERSION then
        if ¬v.features.component_model then
          .error ⟨"WebAssembly component model feature not enabled", range_start⟩
        else
          .ok { v with components := {} :: v.components, state := .ComponentSt }
      else
        .error ⟨"unknown binary version", range_start⟩
  | _ => .error ⟨"wasm version header out of order", range_start⟩

/-- `Validator::end` (`validator.rs` lines 1097-1137).  In the `Module` case
the module's type is added to the enclosing component whenever the component
stack is non-empty; in the `Component` case the popped component's type is
added to the next scope only when **more than one** scope remains after the
pop (`self.components.len() > 1`), and only then does the state return to
`Component`. -/
def Validator.endOp (v : ValidatorS) (offset : Nat) :
    Except WError (ValidatorS × TypesR) :=
  match v.state with
  | .Unparsed _ =>
    .error ⟨"cannot call `end` before a header has been parsed", offset⟩
  | .EndSt =>
    .error ⟨"cannot call `end` after parsing has completed", offset⟩
  | .ModuleSt =>
    match v.module with
    | none => .error ⟨"no module state", offset⟩
    | some st =>
      match st.validate_end offset with
      | .error e => .error e
      | .ok _ =>
        let t := TypesR.from_module st.module
        match v.components with
        | parent :: rest =>
          let (parent', tc') := addModule parent v.typesCount
          .ok ({ v with state := .ComponentSt, module := none
                        components := parent' :: rest, typesCount := tc' }, t)
        | [] =>
          .ok ({ v with state := .EndSt, module := none }, t)
  | .ComponentSt =>
    match v.components with
    | [] => .error ⟨"no component state", offset⟩
    | component :: rest =>
      if rest.length > 1 then
        match rest with
        | parent :: rest2 =>
          let (parent', tc') := addComponent parent v.typesCount
          .ok ({ v with state := .ComponentSt, components := parent' :: rest2
                        typesCount := tc' }, TypesR.from_component component)
        | [] => .error ⟨"no component state", offset⟩
      else
        .ok ({ v with state := .EndSt, components := rest },
             TypesR.from_component component)

/-! ## Header parsing and the whole-buffer entry point -/

/-- Modelled from the spec: the header handling of `Parser` (`parser.rs` is
not in the sources): magic `\0asm`, then a 4-byte little-endian version word;
the version word selects the encoding (1 = module, the component draft
constant = component); any other version word is "unknown binary version" at
offset 4 (spec §6.1 and scenario S2). -/
def parseHeader (bytes : List Nat) : Except WError (Nat × Encoding) :=
  if bytes.length < 8 then
    .error ⟨"unexpected end-of-file", bytes.length⟩
  else if bytes.take 4 = [0x00, 0x61, 0x73, 0x6d] then
    let num := bytes.getD 4 0 + 256 * bytes.getD 5 0 +
               65536 * bytes.getD 6 0 + 16777216 * bytes.getD 7 0
    if num = WASM_MODULE_VERSION then .ok (num, .Module)
    else if num = WASM_COMPONENT_VERSION then .ok (num, .Component)
    else .error ⟨"unknown binary version", 4⟩
  else
    .error ⟨"magic header not detected", 0⟩

/-- Modelled from the spec: `validate` (`validator.rs` lines 37-39) composed
with the parser, specialised to inputs that are exactly a header (8 bytes),
for which the parser yields the payload sequence `[Version, End]`; inputs
with sections are outside the scope of this model. -/
def validate_header_only (bytes : List Nat) : Except WError TypesR :=
  match parseHeader bytes with
  | .error e => .error e
  | .ok (num, enc) =>
    match Validator.version Validator.new num enc 0 with
    | .error e => .error e
    | .ok v1 =>
      if bytes.length = 8 then
        match Validator.endOp v1 8 with
        | .error e => .error e
        | .ok (_, t) => .ok t
      else
        .error ⟨"inputs with sections are not modelled", 8⟩

/-! ## The memory encoder (`wasm-encoder/src/core/memories.rs`) -/

/-- Modelled from the spec: `encoders::u64` (`encoders.rs` is not in the
sources) — standard unsigned LEB128. -/
def leb128U64 (n : Nat) : List Nat :=
  if n < 128 then [n] else (n % 128 + 128) :: leb128U64 (n / 128)
decreasing_by exact Nat.div_lt_self (by omega) (by omega)

/-- `MemoryType` from `memories.rs` (lines 75-82): minimum, optional maximum,
and the 64-bit flag.  This version of the encoder has no `shared` field. -/
structure MemoryType where
  minimum : Nat
  maximum : Option Nat
  memory64 : Bool
deriving DecidableEq, Repr

/-- `MemoryType::encode` (`memories.rs` lines 85-98): a flags byte built with
`|= 0b001` when a maximum is present and `|= 0b100` for memory64, then the
LEB128 minimum, then the LEB128 maximum when present. -/
def MemoryType.encode (m : MemoryType) : List Nat :=
  let flags := (if m.maximum.isSome then 1 else 0) ||| (if m.memory64 then 4 else 0)
  flags :: (leb128U64 m.minimum ++
    match m.maximum with
    | some mx => leb128U64 mx
    | none => [])

/-! ## `Validator::validate_all` (`validator.rs` lines 342-363) -/

/-- `ValidPayload` (`validator.rs` lines 290-303): the per-payload outcome,
with the deferred function-body validator (`χ`) and the final types (`τ`)
parametric. -/
inductive ValidOut (χ τ : Type) where
  | Ok
  | Parser
  | Func (f : χ)
  | End (t : τ)
deriving DecidableEq, Repr

/-- The function-body validator collected from a `Func` outcome, if any. -/
def outFunc {χ τ : Type} : ValidOut χ τ → Option χ
  | .Func f => some f
  | _ => none

/-- The types produced by an `End` outcome, if any. -/
def outEnd {χ τ : Type} : ValidOut χ τ → Option τ
  | .End t => some t
  | _ => none

/-- The payload loop of `Validator::validate_all` (lines 343-356): every
payload is fed to `step` (`Validator::payload`); `Func` outcomes are pushed
onto `functions_to_validate`, each `End` outcome overwrites `last_types`, and
no function body is validated inside this loop. -/
def payloadLoop {σ π χ τ : Type} (step : σ → π → Except WError (σ × ValidOut χ τ)) :
    σ → List π → List χ → Option τ → Except WError (σ × List χ × Option τ)
  | s, [], funcs, last => .ok (s, funcs, last)
  | s, p :: ps, funcs, last =>
    match step s p with
    | .error e => .error e
    | .ok (s', out) =>
      match out with
      | .Func f => payloadLoop step s' ps (funcs ++ [f]) last
      | .End t => payloadLoop step s' ps funcs (some t)
      | _ => payloadLoop step s' ps funcs last

/-- The deferred body-validation loop of `validate_all` (lines 358-360). -/
def validateBodies {χ : Type} (vb : χ → Except WError Unit) :
    List χ → Except WError Unit
  | [] => .ok ()
  | f :: fs =>
    match vb f with
    | .error e => .error e
    | .ok _ => validateBodies vb fs

/-- `Validator::validate_all` (lines 342-363): run the payload loop over the
whole input, then validate the collected function bodies, then return
`last_types`.  The Rust `last_types.unwrap()` panics when no `End` payload was
seen; the model returns the `Option` instead. -/
def Validator.validate_all {σ π χ τ : Type}
    (step : σ → π → Except WError (σ × ValidOut χ τ))
    (vb : χ → Except WError Unit) (s0 : σ) (ps : List π) :
    Except WError (Option τ) :=
  match payloadLoop step s0 ps [] none with
  | .error e => .error e
  | .ok (_, funcs, last) =>
    match validateBodies vb funcs with
    | .error e => .error e
    | .ok _ => .ok last

/-- Specification helper for `validate_all`: thread the validator state
through all payloads, collecting each payload's outcome. -/
def runSteps {σ π χ τ : Type} (step : σ → π → Except WError (σ × ValidOut χ τ)) :
    σ → List π → Except WError (σ × List (ValidOut χ τ))
  | s, [] => .ok (s, [])
  | s, p :: ps =>
    match step s p with
    | .error e => .error e
    | .ok (s', out) =>
      match runSteps step s' ps with
      | .error e => .error e
      | .ok (s'', outs) => .ok (s'', out :: outs)

/-- Specification helper: the value of `last_types` after folding a list of
`End`-produced types over an initial value (each `End` overwrites the
previous value). -/
def lastOr {τ : Type} (l : List τ) (d : Option τ) : Option τ :=
  match l.getLast? with
  | some t => some t
  | none => d

/-- The concrete forbid-bulk-memory data-section reader used for C2: one
segment whose flags byte is `1`, followed by the init expression
`i32.const 0; end` and an empty data blob. -/
def c2Reader : DataSectionReader where
  reader := { buffer := [1, 0x41, 0x00, 0x0b, 0x00], position := 0, original_offset := 0 }
  count := 1
  forbid_bulk_memory := true

/-- The validator state reached while validating a component that contains
exactly one nested component, at the moment the nested component's `End`
payload arrives: the scope stack holds the nested scope (top) and the
top-level parent scope. -/
def c1Input : ValidatorS where
  state := .ComponentSt
  typesCount := 5
  module := none
  components := [{}, {}]
  features := { WasmFeatures.default with component_model := true }

/-! ## Helper lemmas -/

theorem check_max_ok_iff (cur amt max : Nat) (desc : String) (offset : Nat) :
    check_max cur amt max desc offset = .ok () ↔ cur + amt ≤ max := by
  unfold check_max checkedSub
  by_cases h1 : cur ≤ max
  · by_cases h2 : amt ≤ max - cur
    · simp [h1, h2]
      omega
    · simp [h1, h2]
      constructor
      · intro h
        split at h <;> simp_all
      · omega
  · simp [h1]
    constructor
    · intro h
      split at h <;> simp_all
    · omega

theorem check_max_fail_eq (cur amt max : Nat) (desc : String) (offset : Nat)
    (h : max < cur + amt) :
    check_max cur amt max desc offset =
      .error ⟨if max = 1 then "multiple " ++ desc
              else desc ++ " count exceeds limit of " ++ toString max, offset⟩ := by
  unfold check_max checkedSub
  by_cases h1 : cur ≤ max
  · have h2 : ¬amt ≤ max - cur := by omega
    simp [h1, h2]
    split <;> simp_all
  · simp [h1]
    split <;> simp_all

/-! ## Claim theorems -/

/-- C6: the cardinality-cap check `check_max` with current length `cur`, added
count `amt` and maximum `max` fails iff `cur + amt > max`; on failure the
error message is "multiple <desc>" when `max` is 1 and "<desc> count exceeds
limit of <max>" otherwise; and a module declaring two memories under default
features fails the memory-section cap check with "multiple memories". -/
theorem c6_check_max_spec (cur amt max offset : Nat) (desc : String) :
    (check_max cur amt max desc offset = .ok () ↔ cur + amt ≤ max) ∧
    (max < cur + amt →
      check_max cur amt max desc offset =
        .error ⟨if max = 1 then "multiple " ++ desc
                else desc ++ " count exceeds limit of " ++ toString max, offset⟩) ∧
    memory_section_cap 0 WasmFeatures.default 2 offset =
      .error ⟨"multiple memories", offset⟩ := by
  refine ⟨check_max_ok_iff cur amt max desc offset,
          check_max_fail_eq cur amt max desc offset, ?_⟩
  unfold memory_section_cap
  have h := check_max_fail_eq 0 2 (max_memories WasmFeatures.default) "memories" offset
    (by decide)
  simpa using h

/-- C6 witness: the cap check at the concrete input `cur = 0`, `amt = 2`,
`max = 1` (two memories, multi-memory off) fails with "multiple memories". -/
theorem c6_check_max_spec_witness :
    check_max 0 2 1 "memories" 9 = .error ⟨"multiple memories", 9⟩ := by
  have h := (c6_check_max_spec 0 2 1 9 "memories").2.1 (by decide)
  simpa using h

/-- C3 counterexample: the data-section cap check does **not** depend only on
the Data section's count.  With a preceding DataCount section declaring
100,000 segments (itself accepted by `data_count_section`), a Data section
with count 1 fails the cap check although 1 ≤ 100,000 — refuting "the check
passes if and only if the Data section's count is at most 100,000,
independent of what a preceding DataCount section declared". -/
theorem c3_data_cap_counterexample :
    data_count_section_check 100000 0 = .ok () ∧
    (1 : Nat) ≤ 100000 ∧
    data_section_cap (some 100000) 1 0 ≠ .ok () := by
  refine ⟨rfl, by decide, ?_⟩
  intro h
  rw [data_section_cap, check_max_ok_iff] at h
  simp [MAX_WASM_DATA_SEGMENTS] at h

/-- C3 amended: `Validator::data_section` passes the count of the Data section
to `check_max` with `state.module.data_count.unwrap_or(0)` as the current
length, so the cap check passes iff the DataCount declaration (0 when absent)
plus the Data section's count is at most 100,000. -/
theorem c3_data_cap_amended (dc : Option Nat) (count offset : Nat) :
    data_section_cap dc count offset = .ok () ↔ dc.getD 0 + count ≤ 100000 := by
  rw [data_section_cap, check_max_ok_iff, MAX_WASM_DATA_SEGMENTS]

/-- C4: the Code section start is accepted iff either a Function section was
seen and its count equals the Code section's count, or no Function section
was seen and the Code count is 0; a mismatch fails with "function and code
section have inconsistent lengths"; a non-empty Code section without a
Function section fails (with "code section without function section"). -/
theorem c4_code_section_start (ecb : Option Nat) (count offset : Nat) :
    (code_section_start_check ecb count offset = .ok () ↔
      ecb = some count ∨ (ecb = none ∧ count = 0)) ∧
    (∀ n, ecb = some n → n ≠ count →
      code_section_start_check ecb count offset =
        .error ⟨"function and code section have inconsistent lengths", offset⟩) ∧
    (ecb = none → count ≠ 0 →
      code_section_start_check ecb count offset =
        .error ⟨"code section without function section", offset⟩) := by
  unfold code_section_start_check
  rcases ecb with _ | n
  · refine ⟨?_, ?_, ?_⟩
    · split <;> simp_all
    · intro n h
      exact absurd h (by simp)
    · intro _ h
      simp [h]
  · refine ⟨?_, ?_, ?_⟩
    · split <;> simp_all
    · intro m hm hne
      cases hm
      simp [hne]
    · intro h
      exact absurd h (by simp)

/-- C4 witness: concrete instances of all three clauses — counts 2/2 accepted,
counts 3/2 rejected with the inconsistent-lengths message, and a Code count of
1 without a Function section rejected. -/
theorem c4_code_section_start_witness :
    code_section_start_check (some 2) 2 7 = .ok () ∧
    code_section_start_check (some 3) 2 7 =
      .error ⟨"function and code section have inconsistent lengths", 7⟩ ∧
    code_section_start_check none 1 7 =
      .error ⟨"code section without function section", 7⟩ :=
  ⟨(c4_code_section_start (some 2) 2 7).1.mpr (Or.inl rfl),
   (c4_code_section_start (some 3) 2 7).2.1 3 rfl (by decide),
   (c4_code_section_start none 1 7).2.2 rfl (by decide)⟩

/-- C5: for a Start section whose function index resolves to a known function
type, validation fails with "invalid start function type" iff the type has a
non-empty parameter list or a non-empty result list, and a `() -> ()` start
function is accepted. -/
theorem c5_start_section (functions : List Nat) (types : List FuncType)
    (func offset : Nat) (ty : FuncType)
    (h : get_func_type functions types func offset = .ok ty) :
    (start_section_check functions types func offset = .ok () ↔
      ty.params = [] ∧ ty.returns = []) ∧
    (ty.params ≠ [] ∨ ty.returns ≠ [] →
      start_section_check functions types func offset =
        .error ⟨"invalid start function type", offset⟩) := by
  have hred : start_section_check functions types func offset =
      if ¬ty.params.isEmpty ∨ ¬ty.returns.isEmpty then
        .error ⟨"invalid start function type", offset⟩
      else .ok () := by
    unfold start_section_check
    rw [h]
  rw [hred]
  constructor
  · by_cases hp : ty.params = [] <;> by_cases hr : ty.returns = [] <;>
      simp [hp, hr, List.isEmpty_iff]
  · intro hne
    have hcond : ¬ty.params.isEmpty ∨ ¬ty.returns.isEmpty := by
      rcases hne with h1 | h1
      · exact Or.inl (by simp [List.isEmpty_iff, h1])
      · exact Or.inr (by simp [List.isEmpty_iff, h1])
    rw [if_pos hcond]

/-- C5 witness: a start function of type `() -> ()` (function 0 with type id
0) is accepted, and one of type `(i32) -> ()` is rejected with "invalid start
function type". -/
theorem c5_start_section_witness :
    start_section_check [0] [⟨[], []⟩] 0 11 = .ok () ∧
    start_section_check [0] [⟨[.I32], []⟩] 0 11 =
      .error ⟨"invalid start function type", 11⟩ :=
  ⟨(c5_start_section [0] [⟨[], []⟩] 0 11 ⟨[], []⟩ rfl).1.mpr ⟨rfl, rfl⟩,
   (c5_start_section [0] [⟨[.I32], []⟩] 0 11 ⟨[.I32], []⟩ rfl).2
     (Or.inl (by decide))⟩

/-- C8: the memory encoder emits a flags byte whose bit 0 is set iff a maximum
is present and whose bit 2 is set iff the memory is 64-bit, with bit 1 (the
shared flag) never set, followed by the LEB128 minimum and then the LEB128
maximum exactly when a maximum is present. -/
theorem c8_memory_encode (m : MemoryType) :
    ∃ flags rest,
      MemoryType.encode m = flags :: rest ∧
      flags.testBit 0 = m.maximum.isSome ∧
      flags.testBit 1 = false ∧
      flags.testBit 2 = m.memory64 ∧
      rest = leb128U64 m.minimum ++
        (match m.maximum with
         | some mx => leb128U64 mx
         | none => []) := by
  rcases m with ⟨min, max, m64⟩
  rcases max with _ | mx <;> cases m64 <;>
    (refine ⟨_, _, rfl, ?_, ?_, ?_, rfl⟩ <;> simp <;> decide)

/-- C7: validating the 8-byte module header `00 61 73 6d 01 00 00 00`
succeeds with a `Types` whose counts are all zero; validating
`00 61 73 6d 02 00 00 00` fails with "unknown binary version" at offset 4;
and in general `Validator::version` accepts a module header iff the version
word equals the module version 1. -/
theorem c7_header_validation :
    validate_header_only [0x00, 0x61, 0x73, 0x6d, 0x01, 0x00, 0x00, 0x00] =
      .ok ⟨0, 0, 0, 0, 0, 0, 0, 0, 0, 0, 0⟩ ∧
    validate_header_only [0x00, 0x61, 0x73, 0x6d, 0x02, 0x00, 0x00, 0x00] =
      .error ⟨"unknown binary version", 4⟩ ∧
    ∀ num range_start,
      (∃ v', Validator.version Validator.new num .Module range_start = .ok v') ↔
        num = WASM_MODULE_VERSION := by
  refine ⟨rfl, rfl, ?_⟩
  intro num range_start
  unfold Validator.version Validator.new WASM_MODULE_VERSION
  by_cases h : num = 1
  · simp [h]
  · simp [h]

/-- C1 (bug evidence): the validator state during a component with exactly
one nested component, at the nested component's `End`.  The embedded
`Validator::end` pops the nested scope, but because the code guards the
parent update with `self.components.len() > 1` *after* the pop (instead of
checking that the stack is non-empty, as its own comment and the spec
describe), the single remaining parent scope is left unchanged — no component
type is interned (`typesCount` stays 5) and nothing is added to the parent's
component index space — and the state moves to `End`, so the very next
component-section payload of the parent fails with "after parsing has
completed". -/
theorem c1_nested_component_end_bug :
    Validator.endOp c1Input 20 =
      .ok ({ c1Input with state := .EndSt, components := [{}] },
           TypesR.from_component {}) ∧
    ({} : ComponentState).components = [] ∧
    (({ c1Input with state := .EndSt, components := [{}] } : ValidatorS).typesCount
      = c1Input.typesCount) ∧
    VState.ensure_component_state .EndSt "type" 30 =
      .error ⟨"unexpected component type section after parsing has completed", 30⟩ := by
  refine ⟨rfl, rfl, rfl, rfl⟩

theorem dataReadTail_ok_kind (k : DataKind) (ss : Nat) (s : DataSectionReader)
    (r : BinReader) (d : DataSeg) (s' : DataSectionReader)
    (h : dataReadTail k ss s r = .ok (d, s')) : d.kind = k := by
  unfold dataReadTail at h
  split at h
  · simp at h
  · split at h
    · simp at h
    · split at h
      · simp at h
      · simp only [RResult.ok.injEq, Prod.mk.injEq] at h
        rw [← h.1]

/-- C2 amended: under forbid-bulk-memory mode, the data-segment read never
yields a passive segment: whatever the flags byte decodes to, a successful
read classifies the segment as active with the flags value itself as the
memory index (flags 0 therefore means memory index 0, and a nonzero flags
byte does not make the read itself fail — the resulting out-of-range memory
index is left to the validator's item check). -/
theorem c2_forbid_bulk_memory_amended (s : DataSectionReader) (d : DataSeg)
    (s' : DataSectionReader) (hf : s.forbid_bulk_memory = true)
    (h : s.read = .ok (d, s')) :
    ∃ flags r1, read_var_u32 s.reader = .ok (flags, r1) ∧
      ∃ eo ie, d.kind = .Active flags eo ie := by
  unfold DataSectionReader.read at h
  split at h
  · simp at h
  · rename_i flags r1 heq
    refine ⟨flags, r1, heq, ?_⟩
    rw [hf] at h
    rw [if_neg (by simp)] at h
    simp only [eq_self_iff_true, if_true] at h
    split at h
    · simp at h
    · simp at h
    · rename_i memory_index r2 heq2
      have hm : memory_index = flags := by
        by_cases hc : flags = 0
        · simp [hc] at heq2
          omega
        · simp [hc] at heq2
          omega
      subst hm
      split at h
      · simp at h
      · split at h
        · simp at h
        · exact ⟨_, _, dataReadTail_ok_kind _ _ _ _ _ _ h⟩

/-- C2 counterexample: with forbid-bulk-memory enabled, a data segment whose
flags byte is 1 (a value other than 0) does **not** cause the read to fail:
the read succeeds and classifies the segment as active with memory index 1
(the flags value), refuting both "any other flags-byte value causes the read
to fail" and "the flags value is interpreted as memory index 0". -/
theorem c2_forbid_bulk_memory_counterexample :
    c2Reader.read = .ok
      ({ kind := .Active 1 1 [0x41, 0x00, 0x0b], data := [], range_start := 0,
         range_end := 5 },
       { reader := { buffer := [1, 0x41, 0x00, 0x0b, 0x00], position := 5,
                     original_offset := 0 },
         count := 1, forbid_bulk_memory := true }) := by
  decide

/-- C2 witness: the amended statement evaluated at the concrete reader
`c2Reader`: its successful read yields an active segment whose memory index
equals the decoded flags value. -/
theorem c2_forbid_bulk_memory_amended_witness :
    ∃ flags r1, read_var_u32 c2Reader.reader = .ok (flags, r1) ∧
      ∃ eo ie,
        ({ kind := .Active 1 1 [0x41, 0x00, 0x0b], data := [], range_start := 0,
           range_end := 5 } : DataSeg).kind = .Active flags eo ie :=
  c2_forbid_bulk_memory_amended c2Reader
    { kind := .Active 1 1 [0x41, 0x00, 0x0b], data := [], range_start := 0,
      range_end := 5 }
    { reader := { buffer := [1, 0x41, 0x00, 0x0b, 0x00], position := 5,
                  original_offset := 0 },
      count := 1, forbid_bulk_memory := true }
    rfl (by decide)

/-- A successful primitive read leaves the buffer and base offset unchanged,
never moves the cursor backwards, and leaves it within the buffer. -/
def ReaderAdvances (r r' : BinReader) : Prop :=
  r'.buffer = r.buffer ∧ r'.original_offset = r.original_offset ∧
  r.position ≤ r'.position ∧ r'.position ≤ r.buffer.length

theorem ReaderAdvances.trans {r1 r2 r3 : BinReader}
    (h1 : ReaderAdvances r1 r2) (h2 : ReaderAdvances r2 r3) :
    ReaderAdvances r1 r3 := by
  obtain ⟨hb1, ho1, hp1, hl1⟩ := h1
  obtain ⟨hb2, ho2, hp2, hl2⟩ := h2
  refine ⟨hb2.trans hb1, ho2.trans ho1, hp1.trans hp2, ?_⟩
  rw [hb1] at hl2
  exact hl2

theorem readByte_advances {r : BinReader} {b : Nat} {r' : BinReader}
    (h : readByte r = .ok (b, r')) : ReaderAdvances r r' := by
  unfold readByte at h
  split at h
  · rename_i b' hg
    simp only [Except.ok.injEq, Prod.mk.injEq] at h
    obtain ⟨-, h2⟩ := h
    have hlt : r.position < r.buffer.length := by
      by_contra hge
      rw [List.get?_eq_none.mpr (by omega)] at hg
      cases hg
    rw [← h2]
    refine ⟨rfl, rfl, ?_, ?_⟩ <;> simp <;> omega
  · cases h

theorem readVarU32Go_advances :
    ∀ (fuel shift acc : Nat) (r : BinReader) (v : Nat) (r' : BinReader),
      readVarU32Go fuel shift acc r = .ok (v, r') → ReaderAdvances r r' := by
  intro fuel
  induction fuel with
  | zero => intro shift acc r v r' h; cases h
  | succ n ih =>
    intro shift acc r v r' h
    unfold readVarU32Go at h
    split at h
    · cases h
    · rename_i b r1 hb
      split at h
      · split at h
        · simp only [Except.ok.injEq, Prod.mk.injEq] at h
          rw [← h.2]
          exact readByte_advances hb
        · cases h
      · exact (readByte_advances hb).trans (ih _ _ _ _ _ h)

theorem skipVar_advances :
    ∀ (fuel : Nat) (r r' : BinReader),
      skipVar fuel r = .ok r' → ReaderAdvances r r' := by
  intro fuel
  induction fuel with
  | zero => intro r r' h; cases h
  | succ n ih =>
    intro r r' h
    unfold skipVar at h
    split at h
    · cases h
    · rename_i b r1 hb
      split at h
      · cases h
        exact readByte_advances hb
      · exact (readByte_advances hb).trans (ih _ _ h)

theorem skipBytes_advances {n : Nat} {r r' : BinReader}
    (h : skipBytes n r = .ok r') : ReaderAdvances r r' := by
  unfold skipBytes at h
  split at h
  · cases h
    refine ⟨rfl, rfl, ?_, ?_⟩ <;> simp <;> omega
  · cases h

theorem skipInitExprGo_advances :
    ∀ (fuel : Nat) (r r' : BinReader),
      skipInitExprGo fuel r = .ok r' → ReaderAdvances r r' := by
  intro fuel
  induction fuel with
  | zero => intro r r' h; cases h
  | succ n ih =>
    intro r r' h
    unfold skipInitExprGo at h
    split at h
    · cases h
    · rename_i op r1 hb
      split at h
      · cases h
        exact readByte_advances hb
      · split at h
        · cases h
        · rename_i r2 hstep
          refine ((readByte_advances hb).trans ?_).trans (ih _ _ h)
          repeat' split at hstep
          all_goals
            first
              | exact skipVar_advances _ _ _ hstep
              | exact skipBytes_advances hstep
              | cases hstep

theorem skip_init_expr_advances {r r' : BinReader}
    (h : skip_init_expr r = .ok r') : ReaderAdvances r r' :=
  skipInitExprGo_advances _ _ _ h

theorem verify_data_end_ok_bound {r : BinReader} {e : Nat}
    (h : verify_data_end r e = .ok ()) : e ≤ r.buffer.length := by
  unfold verify_data_end at h
  split at h
  · cases h
  · omega

theorem dataReadTail_no_panic (k : DataKind) (ss : Nat) (s : DataSectionReader)
    (r : BinReader) : dataReadTail k ss s r ≠ .panicked := by
  unfold dataReadTail
  split
  · simp
  · rename_i data_len r4 hread
    split
    · simp
    · rename_i u hver
      have hb : r4.position + data_len ≤ r4.buffer.length := by
        cases u
        exact verify_data_end_ok_bound hver
      rw [rustSlice, if_pos ⟨by omega, hb⟩]
      simp

theorem read_no_panic (s : DataSectionReader) :
    s.read ≠ .panicked := by
  unfold DataSectionReader.read
  split
  · simp
  · rename_i flags r1 hread
    split
    · exact dataReadTail_no_panic _ _ _ _
    · split
      · simp
      · rename_i hpan
        exfalso
        repeat' split at hpan
        all_goals cases hpan
      · rename_i memory_index r2 hmi
        split
        · simp
        · rename_i r3 hskip
          have hadv := skip_init_expr_advances hskip
          obtain ⟨hb, -, hp, hl⟩ := hadv
          rw [rustSlice, if_pos ⟨hp, by rw [hb]; exact hl⟩]
          exact dataReadTail_no_panic _ _ _ _

/-- C10: the data-section reader never reads outside the section's byte
slice: the full segment read is panic-free (every Rust slice it takes is in
bounds), and whenever the declared data length would extend past the end of
the section buffer, the read's tail returns the error "unexpected end of
section or function: data segment extends past end of the data section" at
the offset of the section's end instead of slicing out of bounds. -/
theorem c10_data_read_in_bounds :
    (∀ s : DataSectionReader, s.read ≠ RResult.panicked) ∧
    (∀ (k : DataKind) (ss : Nat) (s : DataSectionReader) (r : BinReader)
       (data_len : Nat) (r4 : BinReader),
      read_var_u32 r = .ok (data_len, r4) →
      r4.buffer.length < r4.position + data_len →
      dataReadTail k ss s r =
        .err ⟨"unexpected end of section or function: data segment extends past end of the data section",
              r4.original_offset + r4.buffer.length⟩) := by
  constructor
  · exact read_no_panic
  · intro k ss s r data_len r4 hread hover
    unfold dataReadTail
    rw [hread]
    simp [verify_data_end, hover]

/-- C10 witness: a section buffer of one byte `[5]` declares a 5-byte data
segment; the tail read fails with the past-end error at the section's end
(offset 1), and the concrete full read of that section is not a panic. -/
theorem c10_data_read_in_bounds_witness :
    dataReadTail .Passive 0
      { reader := { buffer := [5], position := 0, original_offset := 0 },
        count := 1, forbid_bulk_memory := false }
      { buffer := [5], position := 0, original_offset := 0 } =
      .err ⟨"unexpected end of section or function: data segment extends past end of the data section", 1⟩ ∧
    ({ reader := { buffer := [5], position := 0, original_offset := 0 },
       count := 1, forbid_bulk_memory := false } : DataSectionReader).read ≠
      RResult.panicked :=
  ⟨c10_data_read_in_bounds.2 .Passive 0
      { reader := { buffer := [5], position := 0, original_offset := 0 },
        count := 1, forbid_bulk_memory := false }
      { buffer := [5], position := 0, original_offset := 0 } 5
      { buffer := [5], position := 1, original_offset := 0 } rfl (by decide),
   c10_data_read_in_bounds.1 _⟩

theorem lastOr_cons {τ : Type} (t : τ) (l : List τ) (d : Option τ) :
    lastOr (t :: l) d = lastOr l (some t) := by
  unfold lastOr
  cases l with
  | nil => simp
  | cons x xs =>
    rw [List.getLast?_cons_cons]
    cases hxs : (x :: xs).getLast? with
    | none => exact absurd (List.getLast?_eq_none_iff.mp hxs) (by simp)
    | some y => rfl

theorem lastOr_none {τ : Type} (l : List τ) :
    lastOr l none = l.getLast? := by
  unfold lastOr
  cases hl : l.getLast? <;> rfl

theorem payloadLoop_runSteps {σ π χ τ : Type}
    (step : σ → π → Except WError (σ × ValidOut χ τ)) :
    ∀ (ps : List π) (s : σ) (funcs : List χ) (last : Option τ),
      payloadLoop step s ps funcs last =
        match runSteps step s ps with
        | .error e => .error e
        | .ok (s', outs) =>
          .ok (s', funcs ++ outs.filterMap outFunc,
               lastOr (outs.filterMap outEnd) last) := by
  intro ps
  induction ps with
  | nil =>
    intro s funcs last
    simp [payloadLoop, runSteps, lastOr]
  | cons p ps ih =>
    intro s funcs last
    unfold payloadLoop runSteps
    cases hstep : step s p with
    | error e => rfl
    | ok pr =>
      obtain ⟨s1, out⟩ := pr
      cases out with
      | Ok =>
        simp only [ih]
        cases hrs : runSteps step s1 ps with
        | error e => simp
        | ok pr' =>
          obtain ⟨s2, outs⟩ := pr'
          simp [outFunc, outEnd]
      | Parser =>
        simp only [ih]
        cases hrs : runSteps step s1 ps with
        | error e => simp
        | ok pr' =>
          obtain ⟨s2, outs⟩ := pr'
          simp [outFunc, outEnd]
      | Func f =>
        simp only [ih]
        cases hrs : runSteps step s1 ps with
        | error e => simp
        | ok pr' =>
          obtain ⟨s2, outs⟩ := pr'
          simp [outFunc, outEnd]
      | End t =>
        simp only [ih]
        cases hrs : runSteps step s1 ps with
        | error e => simp
        | ok pr' =>
          obtain ⟨s2, outs⟩ := pr'
          simp [outFunc, outEnd, lastOr_cons]

theorem validateBodies_ok_iff {χ : Type} (vb : χ → Except WError Unit) :
    ∀ (l : List χ), validateBodies vb l = .ok () ↔ ∀ f ∈ l, vb f = .ok () := by
  intro l
  induction l with
  | nil => simp [validateBodies]
  | cons f fs ih =>
    unfold validateBodies
    cases hf : vb f with
    | error e =>
      simp only [List.mem_cons]
      constructor
      · intro h
        cases h
      · intro h
        rw [h f (Or.inl rfl)] at hf
        cases hf
    | ok u =>
      cases u
      rw [ih]
      simp only [List.mem_cons]
      constructor
      · intro h g hg
        rcases hg with hg | hg
        · rw [hg]
          exact hf
        · exact h g hg
      · intro h g hg
        exact h g (Or.inr hg)

/-- C9: `Validator::validate_all` defers all function-body validation until
after every payload has been processed (the payload loop is independent of
the body validator and runs to completion first); it returns `Ok` iff every
payload validates and every collected function body validates, and the types
it returns are those produced by the final `End` payload (the Rust
`last_types.unwrap()` is modelled by the returned `Option`). -/
theorem c9_validate_all_spec {σ π χ τ : Type}
    (step : σ → π → Except WError (σ × ValidOut χ τ))
    (vb : χ → Except WError Unit) (s0 : σ) (ps : List π) (r : Option τ) :
    Validator.validate_all step vb s0 ps = .ok r ↔
      ∃ s' outs, runSteps step s0 ps = .ok (s', outs) ∧
        (∀ f ∈ outs.filterMap outFunc, vb f = .ok ()) ∧
        r = (outs.filterMap outEnd).getLast? := by
  unfold Validator.validate_all
  rw [payloadLoop_runSteps]
  cases hrs : runSteps step s0 ps with
  | error e => simp
  | ok pr =>
    obtain ⟨s', outs⟩ := pr
    simp only [List.nil_append, lastOr_none, Except.ok.injEq, Prod.mk.injEq]
    cases hvb : validateBodies vb (outs.filterMap outFunc) with
    | error e =>
      constructor
      · intro h
        simp at h
      · rintro ⟨s'', outs', ⟨hs, ho⟩, hall, -⟩
        subst ho
        rw [(validateBodies_ok_iff vb _).mpr hall] at hvb
        cases hvb
    | ok u =>
      cases u
      have hall := (validateBodies_ok_iff vb _).mp hvb
      constructor
      · intro h
        simp only [Except.ok.injEq] at h
        exact ⟨s', outs, ⟨rfl, rfl⟩, hall, h.symm⟩
      · rintro ⟨s'', outs', ⟨hs, ho⟩, -, hr⟩
        subst ho
        simp [hr]

/-- C9 witness: the characterization evaluated at a concrete step function
and payload list — payload 0 validates with no action, payload 1 yields a
deferred function body, payload 2 yields `End` with types 2 — so
`validate_all` returns the final `End`'s types. -/
theorem c9_validate_all_spec_witness :
    Validator.validate_all
      (fun (s p : Nat) =>
        .ok (s + 1,
          if p = 0 then ValidOut.Ok
          else if p = 1 then ValidOut.Func p
          else ValidOut.End p))
      (fun _ => .ok ()) 0 [0, 1, 2] = .ok (some 2) :=
  (c9_validate_all_spec
    (fun (s p : Nat) =>
      .ok (s + 1,
        if p = 0 then ValidOut.Ok
        else if p = 1 then ValidOut.Func p
        else ValidOut.End p))
    (fun _ => .ok ()) 0 [0, 1, 2] (some 2)).mpr
    ⟨3, [ValidOut.Ok, ValidOut.Func 1, ValidOut.End 2], rfl,
     fun _ _ => rfl, rfl⟩
